import Mathlib

/-!
Verification development for the Macro-Dashboard repository
(`src/dashboard.py`, a Streamlit dashboard over FRED / BLS / Trading
Economics data).

The Python code is shallowly embedded: pandas Series with possibly-missing
float values become `List (Option ℚ)` (where `none` plays the role of
`NaN`), DataFrames of `(date, value)` rows become `List (Nat × Option ℚ)`
(dates encoded as `year*10000 + month*100 + day`, which orders them exactly
like calendar dates), and Python code that can raise an exception returns
`Except Unit`.  Floating point is idealised by exact rationals; every
numeric claim below is stated with a tolerance far wider than double
rounding error, so the idealisation is harmless.
-/

namespace MacroDash

set_option maxRecDepth 100000

/-- Value of a decimal digit character, `none` for non-digits. -/
def digitVal (c : Char) : Option Nat :=
  if c.isDigit then some (c.toNat - 48) else none

/-- Accumulate decimal digits; fails on the first non-digit. -/
def parseDigitsAux : Nat → List Char → Option Nat
  | acc, [] => some acc
  | acc, c :: cs =>
    match digitVal c with
    | some d => parseDigitsAux (acc * 10 + d) cs
    | none => none

/-- Parse a non-empty all-digit string to a natural number (the digit
fragment accepted by Python `int`). -/
def parseNatDigits (s : String) : Option Nat :=
  match s.toList with
  | [] => none
  | c :: cs => (digitVal c).bind fun d => parseDigitsAux d cs

/-- Numeric value of an all-digit character list (0 for `[]`). -/
def natFromDigits (cs : List Char) : Nat :=
  cs.foldl (fun a c => a * 10 + (c.toNat - 48)) 0

/-- Parse an unsigned decimal literal `digits`, `digits.digits`,
`digits.` or `.digits` (at least one digit in total), as accepted both by
Python `float` and by `pandas.to_numeric`.  Returns `none` for anything
else, in particular for the FRED missing-value marker `"."`. -/
def parseUnsigned (cs : List Char) : Option ℚ :=
  let intPart := cs.takeWhile (fun c => c.isDigit)
  let rest := cs.dropWhile (fun c => c.isDigit)
  match rest with
  | [] => if intPart.isEmpty then none else some (natFromDigits intPart)
  | '.' :: frac =>
    if frac.all (fun c => c.isDigit) && !(intPart.isEmpty && frac.isEmpty) then
      some ((natFromDigits intPart : ℚ) +
        (natFromDigits frac : ℚ) / ((10 : ℚ) ^ frac.length))
    else none
  | _ => none

/-- Decimal-literal parser with optional sign: the common numeric fragment
of Python `float(s)` and `pandas.to_numeric(s)`.  A successful parse is a
finite float; `none` models `float` raising `ValueError` (BLS path) or
`to_numeric(errors="coerce")` producing `NaN` (FRED path). -/
def parseDecimal (s : String) : Option ℚ :=
  match s.toList with
  | '-' :: t => (parseUnsigned t).map (fun q => -q)
  | '+' :: t => parseUnsigned t
  | t => parseUnsigned t

/-- Forward-fill (`fillna(method="pad")`): each `none` entry is replaced by
the most recent `some` value before it, if any.  The first argument is the
value carried in from the left. -/
def padFill : Option ℚ → List (Option ℚ) → List (Option ℚ)
  | _, [] => []
  | carry, none :: rest => carry :: padFill carry rest
  | _, some q :: rest => some q :: padFill (some q) rest

/-- Embedding of `Series.pct_change(n)` as called in `dashboard.py`
(lines 168-176, no explicit `fill_method`).  In the pandas 2.x generation
the code targets (it uses `st.cache_data` and Altair 5), the default is
`fill_method="pad"`: the series is forward-filled, then
`filled / filled.shift(n) - 1` is taken; entry `i` is `NaN` when either
`filled[i]` or `filled[i-n]` is missing (which, after padding, happens only
for leading missing values and for `i < n`).  The dashboard multiplies the
result by 100; that scaling is included here. -/
def pct_change (n : Nat) (xs : List (Option ℚ)) : List (Option ℚ) :=
  let f := padFill none xs
  (List.range xs.length).map (fun i =>
    if n ≤ i then
      match f.get? (i - n), f.get? i with
      | some (some p), some (some c) => some ((c / p - 1) * 100)
      | _, _ => none
    else none)

/-- Calendar-date encoding: `year*10000 + month*100 + day`; monotone in
(year, month, day) lexicographic order, so `Nat` order is date order. -/
def mkDate (y m d : Nat) : Nat := (y * 100 + m) * 100 + d

/-- One observation of a well-formed FRED `observations` array: a record
with a `date` field (already encoded as `mkDate`; `pd.to_datetime` is the
identity on the well-formed ISO dates the API serves) and a string `value`
field. -/
structure FredObs where
  date : Nat
  value : String
deriving DecidableEq

/-- Embedding of `fetch_fred` (dashboard.py lines 49-52) after the HTTP
layer: `out = pd.DataFrame(observations)`, `out["date"] = to_datetime(...)`,
`out["value"] = to_numeric(out["value"], errors="coerce")`.
`pd.DataFrame([])` has no columns at all, so on an empty observations array
the very first column access `out["date"]` raises `KeyError`; this is the
`.error` branch.  Otherwise each observation becomes one `(date, value)`
row, with non-numeric value strings coerced to `none`. -/
def fetch_fred (obs : List FredObs) : Except Unit (List (Nat × Option ℚ)) :=
  if obs.isEmpty then .error ()
  else .ok (obs.map (fun o => (o.date, parseDecimal o.value)))

/-- One entry of `Results.series[0].data` in a BLS response: `year`,
`period` (e.g. `"M05"`, or `"M13"` for the annual aggregate) and a string
`value`. -/
structure BlsItem where
  year : Nat
  period : String
  value : String
deriving DecidableEq

/-- `int(item["period"][1:])`: Python `int` over the characters after the
leading period letter; raises (`none`) if they are not digits. -/
def parseMonth (p : String) : Option Nat := parseNatDigits (p.drop 1)

/-- The row-building loop of `fetch_bls` (dashboard.py lines 73-79): skip
`"M13"` entries, otherwise compute `int(period[1:])` (raises on
non-digits), build the first-of-month date (`pd.to_datetime` raises unless
the month is 1..12) and `float(value)` (raises on non-numeric values —
unlike the FRED path there is no coercion).  Any raise aborts the whole
call. -/
def blsRows : List BlsItem → Except Unit (List (Nat × ℚ))
  | [] => .ok []
  | it :: rest =>
    if it.period = "M13" then blsRows rest
    else
      match parseMonth it.period, parseDecimal it.value with
      | some m, some v =>
        if 1 ≤ m ∧ m ≤ 12 then
          match blsRows rest with
          | .ok rs => .ok ((mkDate it.year m 1, v) :: rs)
          | .error e => .error e
        else .error ()
      | _, _ => .error ()

/-- Sort key of `sort_values("date")`: compare rows by their date. -/
def dateLe (a b : Nat × ℚ) : Prop := a.1 ≤ b.1

instance : DecidableRel dateLe := fun a b => Nat.decLe a.1 b.1

instance : IsTotal (Nat × ℚ) dateLe := ⟨fun a b => Nat.le_total a.1 b.1⟩

instance : IsTrans (Nat × ℚ) dateLe := ⟨fun _ _ _ h h' => Nat.le_trans h h'⟩

/-- Embedding of `fetch_bls` (dashboard.py lines 56-82) after the HTTP
layer: run the row loop, return an empty `(date, value)` frame when no
rows survive, otherwise the rows sorted ascending by date
(`sort_values("date")`). -/
def fetch_bls (items : List BlsItem) : Except Unit (List (Nat × ℚ)) :=
  match blsRows items with
  | .error e => .error e
  | .ok rows => if rows.isEmpty then .ok [] else .ok (List.insertionSort dateLe rows)

/-- The normalised row a well-formed non-`"M13"` BLS item maps to: dated
the first calendar day of its month. -/
def blsRowOf (it : BlsItem) : Nat × ℚ :=
  (mkDate it.year ((parseMonth it.period).getD 0) 1, (parseDecimal it.value).getD 0)

/-- NaN-aware subtraction on idealised floats (`NaN` is `none`). -/
def optSub : Option ℚ → Option ℚ → Option ℚ
  | some a, some b => some (a - b)
  | _, _ => none

/-- The latest-metrics loop (dashboard.py lines 180-191): for one series
frame it yields `(float("nan"), float("nan"))` when the frame is empty,
`(iloc[-1].value, float("nan"))` for a single row, and
`(iloc[-1].value, iloc[-2].value)` otherwise. -/
def latestPair (df : List (Nat × Option ℚ)) : Option ℚ × Option ℚ :=
  match df.reverse with
  | [] => (none, none)
  | [r] => (r.2, none)
  | r :: s :: _ => (r.2, s.2)

/-- The delta of a headline metric card (dashboard.py line 199):
`val - prev if pd.notna(prev) else None`.  The outer `Option` is the
Python `None` (delta omitted); the inner `Option ℚ` is the float value,
which is itself `NaN` when `val` is `NaN`. -/
def deltaOf (df : List (Nat × Option ℚ)) : Option (Option ℚ) :=
  if (latestPair df).2.isSome then some (optSub (latestPair df).1 (latestPair df).2)
  else none

/-- Wall-clock timestamp of a calendar event, as produced by
`pd.to_datetime` on the ISO strings the calendar API serves. -/
structure DT where
  y : Nat
  mo : Nat
  d : Nat
  h : Nat
  mi : Nat
  s : Nat
deriving DecidableEq

/-- A cell of the calendar DataFrame.  The distinct missing-value markers
of pandas object columns are kept apart because downstream code treats
them differently: `pynone` is Python `None` (a JSON `null` in a record),
`nan` is the float NaN a DataFrame puts where one record lacks a key other
records have, `na` is the `pd.NA` used by the explicit backfill loop, and
`naT` is the `pd.NaT` of a failed timestamp parse. -/
inductive Cell where
  | str (s : String)
  | num (q : ℚ)
  | pynone
  | nan
  | na
  | naT
  | ts (t : DT)
  | date (d : Nat)
deriving DecidableEq

/-- A raw calendar event: one JSON object of the response array, as an
association list from field names to values. -/
abbrev RawEvent := List (String × Cell)

/-- The fixed calendar column set (dashboard.py lines 85-96). -/
def CALENDAR_COLUMNS : List String :=
  ["Date", "Country", "Event", "Actual", "Forecast", "TEForecast",
   "Previous", "Importance", "date_only", "time"]

/-- A pandas DataFrame of calendar events: a column list plus one
association-list row per event (rows are keyed by the column names). -/
structure CalTable where
  cols : List String
  rows : List (List (String × Cell))
deriving DecidableEq

/-- The empty frame `pd.DataFrame(columns=CALENDAR_COLUMNS)`. -/
def emptyCalTable : CalTable := ⟨CALENDAR_COLUMNS, []⟩

/-- Whether a column exists in `pd.DataFrame(events)`: pandas creates a
column for every key appearing in at least one record. -/
def colPresent (evs : List RawEvent) (c : String) : Bool :=
  evs.any (fun ev => (ev.lookup c).isSome)

/-- The raw cell of one record in a present column: records lacking the
key get a float `NaN`. -/
def getRaw (ev : RawEvent) (c : String) : Cell :=
  (ev.lookup c).getD .nan

/-- Numeric value of a two-digit character pair. -/
def dd (c₁ c₂ : Char) : Nat := (c₁.toNat - 48) * 10 + (c₂.toNat - 48)

/-- Timestamp parser modelling `pd.to_datetime(_, errors="coerce")` on the
ISO `YYYY-MM-DDTHH:MM:SS` strings the calendar API serves (the only
timestamp shape a well-formed response contains); anything else coerces to
`none` (`NaT`). -/
def parseDT (s : String) : Option DT :=
  match s.toList with
  | [y₁, y₂, y₃, y₄, '-', m₁, m₂, '-', d₁, d₂, 'T', h₁, h₂, ':', n₁, n₂, ':', s₁, s₂] =>
    if [y₁, y₂, y₃, y₄, m₁, m₂, d₁, d₂, h₁, h₂, n₁, n₂, s₁, s₂].all (fun c => c.isDigit) then
      let mo := dd m₁ m₂
      let day := dd d₁ d₂
      let hr := dd h₁ h₂
      let mi := dd n₁ n₂
      let sec := dd s₁ s₂
      if 1 ≤ mo ∧ mo ≤ 12 ∧ 1 ≤ day ∧ day ≤ 31 ∧ hr ≤ 23 ∧ mi ≤ 59 ∧ sec ≤ 59 then
        some ⟨dd y₁ y₂ * 100 + dd y₃ y₄, mo, day, hr, mi, sec⟩
      else none
    else none
  | _ => none

/-- Timestamp parse of a cell: only strings can parse; every other cell
(`NaN`, numbers, `None`) coerces to `NaT` under the well-formed responses
modelled here. -/
def parseTsCell : Cell → Option DT
  | .str s => parseDT s
  | _ => none

/-- Date-only part of a timestamp (`.dt.date`), in the `mkDate` encoding. -/
def dtDate (t : DT) : Nat := mkDate t.y t.mo t.d

/-- Two-digit zero-padded rendering of a field of `strftime`. -/
def two (n : Nat) : String := (if n < 10 then "0" else "") ++ toString n

/-- `strftime("%H:%M")` of a parsed timestamp. -/
def fmtHM (t : DT) : String := two t.h ++ ":" ++ two t.mi

/-- The cell the processed frame holds at column `c` for event `ev`
(dashboard.py lines 127-133): the `Date` column is re-assigned to the
coerced timestamp parse (`NaT` when parsing fails, and the whole column is
`NaT` when the raw response has no `Date` column at all, because
`to_datetime(None)` is `NaT`); `date_only` is its `.dt.date` (`NaT` for
`NaT`); `time` is its `.dt.strftime("%H:%M")` (`NaN` for `NaT`); any other
fixed column keeps its raw value when the column exists in the raw frame
and is backfilled with `pd.NA` otherwise. -/
def projCell (evs : List RawEvent) (ev : RawEvent) (c : String) : Cell :=
  if c = "Date" then
    match parseTsCell (if colPresent evs "Date" then getRaw ev "Date" else .pynone) with
    | some t => .ts t
    | none => .naT
  else if c = "date_only" then
    match parseTsCell (if colPresent evs "Date" then getRaw ev "Date" else .pynone) with
    | some t => .date (dtDate t)
    | none => .naT
  else if c = "time" then
    match parseTsCell (if colPresent evs "Date" then getRaw ev "Date" else .pynone) with
    | some t => .str (fmtHM t)
    | none => .nan
  else if colPresent evs c then getRaw ev c
  else .na

/-- One projected row `df[CALENDAR_COLUMNS]` of the processed frame. -/
def mkCalRow (evs : List RawEvent) (ev : RawEvent) : List (String × Cell) :=
  CALENDAR_COLUMNS.map (fun c => (c, projCell evs ev c))

/-- The processing part of `fetch_calendar` (dashboard.py lines 126-133)
for a non-empty frame: filter to `Country == "United States"` (when the
raw frame has no `Country` column, `df.get("Country")` is `None` and
`df[None == "United States"]`, an indexing by the scalar `False`, raises
`KeyError` — the `.error` branch), then derive/backfill/project columns
per `projCell`. -/
def processEvents (evs : List RawEvent) : Except Unit CalTable :=
  if colPresent evs "Country" then
    .ok ⟨CALENDAR_COLUMNS,
      (evs.filter (fun ev => getRaw ev "Country" = Cell.str "United States")).map
        (mkCalRow evs)⟩
  else .error ()

/-- What the try/except of `fetch_calendar` delivers: `exc` models any
exception while requesting or JSON-decoding (caught, `data = []`),
`nonList` a decoded body that is not a list (replaced by `[]`), and `list`
a decoded JSON array of event objects. -/
inductive CalResp where
  | exc
  | nonList
  | list (evs : List RawEvent)

/-- `pd.DataFrame(data).empty`: true when there are no rows or no columns
(a list of all-empty records yields a frame with rows but zero columns). -/
def dfEmpty (evs : List RawEvent) : Bool :=
  evs.isEmpty || evs.all (fun ev => ev.isEmpty)

/-- Embedding of `fetch_calendar` (dashboard.py lines 99-133) after the
HTTP layer: exceptions and non-list bodies are replaced by `[]`; an empty
frame short-circuits to the empty fixed-column table; otherwise the events
are processed. -/
def fetch_calendar : CalResp → Except Unit CalTable
  | .exc => .ok emptyCalTable
  | .nonList => .ok emptyCalTable
  | .list evs => if dfEmpty evs then .ok emptyCalTable else processEvents evs

/-- The sidebar formatter `_fmt` (dashboard.py lines 334-335):
`x if x not in (None, "") else "N/A"`.  The membership test compares with
`==`; for `pd.NA` the comparison `pd.NA == None` is `pd.NA`, whose
truth-value raises `TypeError` (the `.error` branch).  A float `NaN`
compares unequal to both `None` and `""` and passes through unchanged (it
is then rendered as the string `nan`, not as `N/A`). -/
def fmtCell : Cell → Except Unit Cell
  | .pynone => .ok (.str "N/A")
  | .str s => .ok (if s = "" then .str "N/A" else .str s)
  | .na => .error ()
  | c => .ok c

/-- Python truthiness, as used by the `or` chains in the event loop.
`bool(pd.NA)` and `bool(pd.NaT)` raise `TypeError`; `bool(float("nan"))`
is `True`. -/
def truthy : Cell → Except Unit Bool
  | .pynone => .ok false
  | .str s => .ok (decide (s ≠ ""))
  | .num q => .ok (decide (q ≠ 0))
  | .nan => .ok true
  | .na => .error ()
  | .naT => .error ()
  | .ts _ => .ok true
  | .date _ => .ok true

/-- Python `a or b`: evaluates the truthiness of `a` (which can raise). -/
def pyOr (a b : Cell) : Except Unit Cell := do
  let t ← truthy a
  pure (if t then a else b)

/-- Integer digit-string (with optional sign) accepted by Python `int`. -/
def parseIntLit (s : String) : Option Int :=
  match s.toList with
  | '-' :: c :: cs => ((digitVal c).bind fun d => parseDigitsAux d cs).map (fun n => -(n : Int))
  | '+' :: c :: cs => ((digitVal c).bind fun d => parseDigitsAux d cs).map (fun n => (n : Int))
  | c :: cs => ((digitVal c).bind fun d => parseDigitsAux d cs).map (fun n => (n : Int))
  | [] => none

/-- Python `int(x)` on a cell: truncates a number toward zero, parses an
integer literal string, and raises (`.error`) on `None`, `NaN`, `pd.NA`
and every other non-numeric value. -/
def pyInt : Cell → Except Unit Int
  | .num q => .ok (q.num.tdiv (q.den : Int))
  | .str s => match parseIntLit s with
    | some n => .ok n
    | none => .error ()
  | _ => .error ()

/-- The bullet character `"•"` of the importance marker. -/
def bulletChar : Char := Char.ofNat 8226

/-- The per-event fields materialised by the sidebar loop body
(dashboard.py lines 333-353): the bullet marker plus the formatted
actual/forecast/previous cells and the time cell. -/
structure RenderedEvent where
  dots : String
  time : Cell
  actual : Cell
  forecast : Cell
  previous : Cell
deriving DecidableEq

/-- `ev.get(key)` on a projected row (a pandas Series keyed by
`CALENDAR_COLUMNS`), with a default for absent keys. -/
def rowGetD (row : List (String × Cell)) (k : String) (d : Cell) : Cell :=
  (row.lookup k).getD d

/-- Embedding of the sidebar loop body (dashboard.py lines 333-353) on one
projected row: `actual = _fmt(ev.get("Actual"))`,
`forecast = _fmt(ev.get("Forecast") or ev.get("TEForecast"))`,
`previous = _fmt(ev.get("Previous"))`, `time = ev.get("time") or ""`,
`importance = int(ev.get("Importance", 1))`, `dots = "•" * importance`
(an empty string for a non-positive count, as in Python). -/
def renderEvent (row : List (String × Cell)) : Except Unit RenderedEvent := do
  let actual ← fmtCell (rowGetD row "Actual" .pynone)
  let fc ← pyOr (rowGetD row "Forecast" .pynone) (rowGetD row "TEForecast" .pynone)
  let forecast ← fmtCell fc
  let previous ← fmtCell (rowGetD row "Previous" .pynone)
  let time ← pyOr (rowGetD row "time" .pynone) (.str "")
  let imp ← pyInt (rowGetD row "Importance" (.num 1))
  pure ⟨String.mk (List.replicate imp.toNat bulletChar), time, actual, forecast, previous⟩

/-- Fetch the calendar and render its first event row, exactly as the
sidebar does for the first listed event; `.error` if there is none or if
rendering raises. -/
def renderFirst (resp : CalResp) : Except Unit RenderedEvent := do
  let t ← fetch_calendar resp
  match t.rows with
  | row :: _ => renderEvent row
  | [] => .error ()

/-- The synthetic 24-month CPI series of the specification: starts at 100
and rises by 0.2 (= 1/5) each month. -/
def synthCPI : List (Option ℚ) :=
  [some 100, some (501/5), some (502/5), some (503/5), some (504/5), some (505/5),
   some (506/5), some (507/5), some (508/5), some (509/5), some (510/5), some (511/5),
   some (512/5), some (513/5), some (514/5), some (515/5), some (516/5), some (517/5),
   some (518/5), some (519/5), some (520/5), some (521/5), some (522/5), some (523/5)]

/-- A well-formed two-observation FRED response, the second value being
the missing-value marker `"."`. -/
def demoFredObs : List FredObs :=
  [⟨mkDate 2020 1 1, "1.5"⟩, ⟨mkDate 2020 2 1, "."⟩]

/-- A well-formed BLS response with an annual `"M13"` aggregate and two
monthly entries delivered out of order. -/
def demoBlsItems : List BlsItem :=
  [⟨2020, "M13", "5"⟩, ⟨2020, "M02", "3.5"⟩, ⟨2020, "M01", "2"⟩]

/-- A fully-populated US calendar event with `Importance = 3`. -/
def evImp3 : RawEvent :=
  [("Country", .str "United States"), ("Date", .str "2026-01-02T08:30:00"),
   ("Event", .str "CPI"), ("Actual", .str "3.1"), ("Forecast", .str "3.0"),
   ("TEForecast", .str "3.2"), ("Previous", .str "2.9"), ("Importance", .num 3)]

/-- The same event without the `Importance` field. -/
def evNoImportance : RawEvent :=
  [("Country", .str "United States"), ("Date", .str "2026-01-02T08:30:00"),
   ("Event", .str "CPI"), ("Actual", .str "3.1"), ("Forecast", .str "3.0"),
   ("TEForecast", .str "3.2"), ("Previous", .str "2.9")]

/-- A US calendar event whose response carries no `Actual` field at all
(so the column is backfilled with `pd.NA`). -/
def evNoActual : RawEvent :=
  [("Country", .str "United States"), ("Date", .str "2026-01-02T08:30:00"),
   ("Event", .str "CPI"), ("Forecast", .str "3.0"),
   ("TEForecast", .str "3.2"), ("Previous", .str "2.9"), ("Importance", .num 2)]

/-- A US calendar event whose `Actual` field is a JSON `null`
(Python `None`). -/
def evNullActual : RawEvent :=
  [("Country", .str "United States"), ("Date", .str "2026-01-02T08:30:00"),
   ("Event", .str "CPI"), ("Actual", .pynone), ("Forecast", .str "3.0"),
   ("TEForecast", .str "3.2"), ("Previous", .str "2.9"), ("Importance", .num 2)]

/-- A well-formed single-event calendar response used to witness the
calendar-processing theorem. -/
def demoCalEvs : List RawEvent :=
  [[("Country", .str "United States"), ("Date", .str "2026-10-12T10:00:00"),
    ("Event", .str "Fed Speech"), ("Importance", .num 1)]]

/-! ## Helper lemmas -/

theorem get?_map_range {α : Type} (f : Nat → α) {m i : Nat} (h : i < m) :
    ((List.range m).map f).get? i = some (f i) := by
  rw [List.get?_map, List.get?_range h]
  rfl

theorem padFill_get?_some :
    ∀ (xs : List (Option ℚ)) (carry : Option ℚ) (i : Nat) (q : ℚ),
      xs.get? i = some (some q) → (padFill carry xs).get? i = some (some q) := by
  intro xs
  induction xs with
  | nil => intro carry i q h; cases h
  | cons v rest ih =>
    intro carry i q h
    cases v with
    | none =>
      cases i with
      | zero => cases h
      | succ j => exact ih carry j q h
    | some p =>
      cases i with
      | zero => exact h
      | succ j => exact ih (some p) j q h

theorem padFill_get?_none :
    ∀ (xs : List (Option ℚ)) (i : Nat),
      (∀ j, j ≤ i → xs.get? j = some none) →
      (padFill none xs).get? i = some none := by
  intro xs
  induction xs with
  | nil => intro i h; cases h 0 (Nat.zero_le i)
  | cons v rest ih =>
    intro i h
    have h0 : v = none := by
      have := h 0 (Nat.zero_le i)
      exact Option.some_injective _ this
    subst h0
    cases i with
    | zero => rfl
    | succ j =>
      exact ih j (fun k hk => h (k + 1) (Nat.succ_le_succ hk))

theorem pct_change_get?_of_some (n : Nat) (xs : List (Option ℚ)) (i : Nat)
    (p c : ℚ) (hn : n ≤ i) (hi : i < xs.length)
    (hp : xs.get? (i - n) = some (some p)) (hc : xs.get? i = some (some c)) :
    (pct_change n xs).get? i = some (some ((c / p - 1) * 100)) := by
  have hfp := padFill_get?_some xs none (i - n) p hp
  have hfc := padFill_get?_some xs none i c hc
  unfold pct_change
  rw [get?_map_range _ hi, if_pos hn, hfp, hfc]

theorem pct_change_get?_none_lt (n : Nat) (xs : List (Option ℚ)) (i : Nat)
    (hn : i < n) (hi : i < xs.length) :
    (pct_change n xs).get? i = some none := by
  unfold pct_change
  rw [get?_map_range _ hi, if_neg (Nat.not_le_of_lt hn)]

theorem pct_change_all_none (n : Nat) (xs : List (Option ℚ))
    (hlen : xs.length ≤ n) : ∀ y ∈ pct_change n xs, y = none := by
  intro y hy
  unfold pct_change at hy
  rcases List.mem_map.1 hy with ⟨i, hi, hval⟩
  have hilt : i < xs.length := List.mem_range.1 hi
  rw [if_neg (Nat.not_le_of_lt (Nat.lt_of_lt_of_le hilt hlen))] at hval
  exact hval.symm

theorem pct_change_get?_none_leading (n : Nat) (xs : List (Option ℚ)) (i : Nat)
    (hi : i < xs.length) (h : ∀ j, j ≤ i → xs.get? j = some none) :
    (pct_change n xs).get? i = some none := by
  unfold pct_change
  rw [get?_map_range _ hi]
  by_cases hn : n ≤ i
  · rw [if_pos hn, padFill_get?_none xs i h,
      padFill_get?_none xs (i - n) (fun j hj => h j (Nat.le_trans hj (Nat.sub_le i n)))]
  · rw [if_neg hn]

theorem pct_change_length (n : Nat) (xs : List (Option ℚ)) :
    (pct_change n xs).length = xs.length := by
  unfold pct_change
  rw [List.length_map, List.length_range]

/-! ## C1 and C2: the derived yoy / mom metrics -/

/-- C1, counterexample to the claim as stated: on the synthetic +0.2/month
24-month CPI series, the month-over-month value at month 13 is exactly
100/511 ≈ 0.19570 %, which is further than any floating-rounding tolerance
(1/1000 is used here) from the claimed ≈ 0.1996 %, and the year-over-year
value at month 24 is exactly 1200/511 ≈ 2.34834 %, similarly far from the
claimed ≈ 2.4 %. -/
theorem C1_counterexample :
    (pct_change 1 synthCPI).get? 12 = some (some (100 / 511)) ∧
    (100 / 511 : ℚ) + 1 / 1000 < 1996 / 10000 ∧
    (pct_change 12 synthCPI).get? 23 = some (some (1200 / 511)) ∧
    (1200 / 511 : ℚ) + 1 / 1000 < 24 / 10 := by
  refine ⟨?_, by norm_num, ?_, by norm_num⟩
  · with_unfolding_all decide
  · with_unfolding_all decide

/-- C1, amended: at every row whose current value and 12-rows-earlier
(resp. 1-row-earlier) value are both present, yoy (resp. mom) equals
`(current / earlier - 1) * 100` computed by row position; and on the
synthetic 24-month CPI series the month-over-month at month 13 is
≈ 0.19570 % and the year-over-year at month 24 is ≈ 2.34834 % (not
≈ 0.1996 % and ≈ 2.4 % as claimed). -/
theorem C1_amended_thm :
    (∀ (n : Nat) (xs : List (Option ℚ)) (i : Nat) (p c : ℚ),
        n ≤ i → i < xs.length →
        xs.get? (i - n) = some (some p) → xs.get? i = some (some c) →
        (pct_change n xs).get? i = some (some ((c / p - 1) * 100))) ∧
    (pct_change 1 synthCPI).get? 12 = some (some (100 / 511)) ∧
    (1957 / 10000 : ℚ) - 1 / 1000 < 100 / 511 ∧
    (100 / 511 : ℚ) < 1957 / 10000 + 1 / 1000 ∧
    (pct_change 12 synthCPI).get? 23 = some (some (1200 / 511)) ∧
    (23483 / 10000 : ℚ) - 1 / 1000 < 1200 / 511 ∧
    (1200 / 511 : ℚ) < 23483 / 10000 + 1 / 1000 := by
  refine ⟨pct_change_get?_of_some, ?_, by norm_num, by norm_num, ?_, by norm_num, by norm_num⟩
  · with_unfolding_all decide
  · with_unfolding_all decide

/-- C1, witness: the general formula applied to a concrete two-row series. -/
theorem C1_witness :
    (pct_change 1 [some 100, some 102]).get? 1 = some (some ((102 / 100 - 1) * 100)) :=
  C1_amended_thm.1 1 [some 100, some 102] 1 100 102 (by decide) (by decide)
    (by with_unfolding_all decide) (by with_unfolding_all decide)

/-- C2, counterexample to the claim as stated: `pct_change` is not
null-propagating — on the series `[100, null, 102]` the mom value at the
null row is 0 (the null is forward-filled with 100 first), and at the next
row it is 2 even though its 1-earlier operand is null. -/
theorem C2_counterexample :
    ([some 100, none, some 102] : List (Option ℚ)).get? 1 = some none ∧
    (pct_change 1 [some 100, none, some 102]).get? 1 = some (some 0) ∧
    (pct_change 1 [some 100, none, some 102]).get? 2 = some (some 2) := by
  refine ⟨rfl, ?_, ?_⟩
  · with_unfolding_all decide
  · with_unfolding_all decide

/-- C2, amended: the derived series has one entry per input row; the first
12 rows of yoy and the first row of mom are null; yoy on a table shorter
than 12 is null at every row and mom on a one-row table is null at its
single row; and a null operand yields a null result exactly when it is not
preceded by any non-null value to forward-fill it (pandas `pct_change`
pads nulls with the default `fill_method="pad"` before differencing). -/
theorem C2_amended_thm :
    (∀ (n : Nat) (xs : List (Option ℚ)), (pct_change n xs).length = xs.length) ∧
    (∀ (n : Nat) (xs : List (Option ℚ)) (i : Nat), i < n → i < xs.length →
        (pct_change n xs).get? i = some none) ∧
    (∀ (n : Nat) (xs : List (Option ℚ)), xs.length ≤ n →
        ∀ y ∈ pct_change n xs, y = none) ∧
    (∀ (n : Nat) (xs : List (Option ℚ)) (i : Nat), i < xs.length →
        (∀ j, j ≤ i → xs.get? j = some none) →
        (pct_change n xs).get? i = some none) :=
  ⟨pct_change_length,
   fun n xs i hn hi => pct_change_get?_none_lt n xs i hn hi,
   pct_change_all_none,
   fun n xs i hi h => pct_change_get?_none_leading n xs i hi h⟩

/-- C2, witness: the null-prefix facts applied to concrete series. -/
theorem C2_witness :
    (pct_change 12 [some 1, some 2]).get? 0 = some none ∧
    (pct_change 1 [some 5]).get? 0 = some none :=
  ⟨C2_amended_thm.2.1 12 [some 1, some 2] 0 (by decide) (by decide),
   C2_amended_thm.2.1 1 [some 5] 0 (by decide) (by decide)⟩

/-! ## C3 and C4: the series fetchers -/

/-- C3, counterexample to the claim as stated: a well-formed response with
an empty `observations` array makes `fetch_fred` raise (the empty
DataFrame has no `date` column, so `out["date"]` is a `KeyError`), while
the claim asserts it never fails to parse such a response. -/
theorem C3_counterexample : fetch_fred [] = .error () := rfl

/-- C3, amended: for every well-formed NON-EMPTY central-bank response
(one `date`/`value` record per observation, dates strictly ascending as
the API serves them), `fetch_fred` returns a table with exactly one row
per observation, dates strictly ascending, and each value the coercion of
the observation's value string (null for non-numeric strings); the empty
response instead raises. -/
theorem C3_amended_thm (obs : List FredObs) (hne : obs ≠ [])
    (hasc : List.Chain' (fun a b => a.date < b.date) obs) :
    ∃ t, fetch_fred obs = .ok t ∧ t.length = obs.length ∧
      List.Chain' (fun r s => r.1 < s.1) t ∧
      ∀ i o, obs.get? i = some o → t.get? i = some (o.date, parseDecimal o.value) := by
  refine ⟨obs.map (fun o => (o.date, parseDecimal o.value)), ?_, List.length_map obs _, ?_, ?_⟩
  · unfold fetch_fred
    rw [if_neg (by rw [List.isEmpty_eq_false.2 hne]; exact Bool.false_ne_true)]
  · exact (List.chain'_map _).2 hasc
  · intro i o h
    rw [List.get?_map, h]
    rfl

/-- C3, witness: the amended theorem applied to a concrete well-formed
two-observation response (whose second value is the missing marker). -/
theorem C3_witness :
    ∃ t, fetch_fred demoFredObs = .ok t ∧ t.length = demoFredObs.length := by
  obtain ⟨t, h1, h2, -, -⟩ := C3_amended_thm demoFredObs (by decide)
    (by unfold demoFredObs; exact List.chain'_pair.2 (by decide))
  exact ⟨t, h1, h2⟩

theorem blsRows_error_of_bad_value :
    ∀ (items : List BlsItem) (it : BlsItem), it ∈ items → it.period ≠ "M13" →
      parseDecimal it.value = none → blsRows items = .error () := by
  intro items
  induction items with
  | nil => intro it h; cases h
  | cons a rest ih =>
    intro it hmem hne hval
    rcases List.mem_cons.1 hmem with heq | htail
    · subst heq
      unfold blsRows
      rw [if_neg hne]
      cases parseMonth it.period <;> rw [hval]
    · unfold blsRows
      by_cases ha : a.period = "M13"
      · rw [if_pos ha]
        exact ih it htail hne hval
      · rw [if_neg ha]
        cases hm : parseMonth a.period with
        | none => rfl
        | some m =>
          cases hv : parseDecimal a.value with
          | none => rfl
          | some v =>
            simp only []
            by_cases hrange : 1 ≤ m ∧ m ≤ 12
            · rw [if_pos hrange, ih it htail hne hval]
            · rw [if_neg hrange]

/-- C4, counterexample to the claim as stated: the non-numeric value `"."`
is not coerced to null in the statistics-agency path — `float(".")` raises
`ValueError`, so `fetch_bls` fails on a response containing it. -/
theorem C4_counterexample :
    parseDecimal "." = none ∧
    fetch_bls [⟨2020, "M01", "."⟩] = .error () := by
  refine ⟨by decide, ?_⟩
  unfold fetch_bls
  rw [blsRows_error_of_bad_value [⟨2020, "M01", "."⟩] ⟨2020, "M01", "."⟩
    (List.mem_singleton.2 rfl) (by decide) (by decide)]

/-- C4, amended: only the central-bank path coerces malformed numeric
fields to null (`to_numeric(errors="coerce")`): in any non-empty FRED
response each row's value is the coercion of its value string, null when
non-numeric; in the statistics-agency path a malformed numeric field on
any retained (non-`"M13"`) entry makes the whole fetch raise. -/
theorem C4_amended_thm :
    (∀ (obs : List FredObs) (i : Nat) (o : FredObs), obs ≠ [] →
        obs.get? i = some o →
        ∃ t, fetch_fred obs = .ok t ∧ t.get? i = some (o.date, parseDecimal o.value)) ∧
    (∀ (items : List BlsItem) (it : BlsItem), it ∈ items → it.period ≠ "M13" →
        parseDecimal it.value = none → fetch_bls items = .error ()) := by
  constructor
  · intro obs i o hne h
    refine ⟨obs.map (fun o => (o.date, parseDecimal o.value)), ?_, ?_⟩
    · unfold fetch_fred
      rw [if_neg (by rw [List.isEmpty_eq_false.2 hne]; exact Bool.false_ne_true)]
    · rw [List.get?_map, h]
      rfl
  · intro items it hmem hne hval
    unfold fetch_bls
    rw [blsRows_error_of_bad_value items it hmem hne hval]

/-- C4, witness: a FRED observation with value `"."` produces a null row
value rather than an error. -/
theorem C4_witness :
    ∃ t, fetch_fred demoFredObs = .ok t ∧ t.get? 1 = some (mkDate 2020 2 1, none) := by
  obtain ⟨t, h1, h2⟩ := C4_amended_thm.1 demoFredObs 1 ⟨mkDate 2020 2 1, "."⟩
    (by decide) (by decide)
  refine ⟨t, h1, ?_⟩
  rw [h2]
  rfl

/-! ## C5: the statistics-agency normalisation -/

theorem blsRows_ok_of_wf :
    ∀ (items : List BlsItem),
      (∀ it ∈ items, it.period ≠ "M13" →
        (parseMonth it.period).isSome = true ∧
        1 ≤ (parseMonth it.period).getD 0 ∧ (parseMonth it.period).getD 0 ≤ 12 ∧
        (parseDecimal it.value).isSome = true) →
      blsRows items =
        .ok ((items.filter (fun it => decide (it.period ≠ "M13"))).map blsRowOf) := by
  intro items
  induction items with
  | nil => intro _; rfl
  | cons a rest ih =>
    intro hwf
    have hrest := ih (fun it hit => hwf it (List.mem_cons_of_mem a hit))
    by_cases ha : a.period = "M13"
    · unfold blsRows
      rw [if_pos ha, hrest]
      have : (decide (a.period ≠ "M13")) = false := by
        simp [ha]
      simp [List.filter, this]
    · obtain ⟨hms, hlo, hhi, hvs⟩ := hwf a (List.mem_cons_self a rest) ha
      obtain ⟨m, hm⟩ := Option.isSome_iff_exists.1 hms
      obtain ⟨v, hv⟩ := Option.isSome_iff_exists.1 hvs
      rw [hm, Option.getD_some] at hlo hhi
      unfold blsRows
      rw [if_neg ha, hm, hv]
      simp only []
      rw [if_pos ⟨hlo, hhi⟩, hrest]
      simp only []
      rw [List.filter_cons,
        if_pos (show (decide (a.period ≠ "M13")) = true from decide_eq_true ha),
        List.map_cons]
      unfold blsRowOf
      rw [hm, hv, Option.getD_some, Option.getD_some]

/-- C5: for every well-formed statistics-agency response, `fetch_bls`
drops exactly the `"M13"` annual entries, maps each remaining monthly
entry to a row dated the first calendar day of its month and year
(`blsRowOf`), and returns the rows sorted ascending by date. -/
theorem C5_thm (items : List BlsItem)
    (hwf : ∀ it ∈ items, it.period ≠ "M13" →
      (parseMonth it.period).isSome = true ∧
      1 ≤ (parseMonth it.period).getD 0 ∧ (parseMonth it.period).getD 0 ≤ 12 ∧
      (parseDecimal it.value).isSome = true) :
    ∃ t, fetch_bls items = .ok t ∧
      t.Perm ((items.filter (fun it => decide (it.period ≠ "M13"))).map blsRowOf) ∧
      List.Sorted dateLe t := by
  have hrows := blsRows_ok_of_wf items hwf
  unfold fetch_bls
  rw [hrows]
  simp only []
  by_cases hemp :
      ((items.filter (fun it => decide (it.period ≠ "M13"))).map blsRowOf).isEmpty
  · refine ⟨[], by rw [if_pos hemp], ?_, List.sorted_nil⟩
    rw [List.isEmpty_iff.1 hemp]
  · refine ⟨_, by rw [if_neg hemp], List.perm_insertionSort dateLe _,
      List.sorted_insertionSort dateLe _⟩

/-- C5, witness: the theorem applied to a concrete response containing an
`"M13"` aggregate and two out-of-order monthly entries. -/
theorem C5_witness :
    ∃ t, fetch_bls demoBlsItems = .ok t ∧ List.Sorted dateLe t := by
  obtain ⟨t, h1, -, h3⟩ := C5_thm demoBlsItems (by decide)
  exact ⟨t, h1, h3⟩

/-! ## C6 and C7: the calendar fetcher -/

/-- C6: a failing request / JSON decode (any exception) and a decoded body
that is not a list both yield the empty table with exactly the fixed
calendar column set and zero rows, instead of propagating the failure. -/
theorem C6_thm :
    fetch_calendar .exc = .ok emptyCalTable ∧
    fetch_calendar .nonList = .ok emptyCalTable ∧
    emptyCalTable.cols = CALENDAR_COLUMNS ∧
    emptyCalTable.rows = [] :=
  ⟨rfl, rfl, rfl, rfl⟩

theorem lookup_map_apply (g : String → Cell) :
    ∀ (l : List String) (c : String), c ∈ l →
      (l.map (fun x => (x, g x))).lookup c = some (g c) := by
  intro l
  induction l with
  | nil => intro c hc; cases hc
  | cons a t ih =>
    intro c hc
    by_cases hca : c = a
    · subst hca
      simp [List.lookup]
    · have hmem : c ∈ t := by
        rcases List.mem_cons.1 hc with h | h
        · exact absurd h hca
        · exact h
      have hbeq : (c == a) = false := beq_eq_false_iff_ne.2 hca
      simp only [List.map, List.lookup, hbeq]
      exact ih c hmem

/-- C7: for every non-empty listed calendar response whose records carry a
`Country` field and a parseable `Date` timestamp, the returned table has
exactly the fixed columns in the fixed order (both as its column list and
as the key order of every row), contains only rows whose `Country` is
`"United States"`, extends each row with the parsed timestamp and the
derived date-only and time-of-day fields, and backfills every fixed column
absent from the raw response with the `pd.NA` null marker. -/
theorem C7_thm (evs : List RawEvent) (hne : evs ≠ [])
    (hC : ∀ ev ∈ evs, (ev.lookup "Country").isSome = true)
    (hD : ∀ ev ∈ evs, (parseTsCell (getRaw ev "Date")).isSome = true) :
    ∃ rows, fetch_calendar (.list evs) = .ok ⟨CALENDAR_COLUMNS, rows⟩ ∧
      ∀ row ∈ rows,
        row.map Prod.fst = CALENDAR_COLUMNS ∧
        row.lookup "Country" = some (Cell.str "United States") ∧
        (∃ t, row.lookup "Date" = some (Cell.ts t) ∧
          row.lookup "date_only" = some (Cell.date (dtDate t)) ∧
          row.lookup "time" = some (Cell.str (fmtHM t))) ∧
        (∀ c ∈ CALENDAR_COLUMNS, c ≠ "Date" → c ≠ "date_only" → c ≠ "time" →
          colPresent evs c = false → row.lookup c = some Cell.na) := by
  have hcp : colPresent evs "Country" = true := by
    rw [colPresent, List.any_eq_true]
    cases evs with
    | nil => exact absurd rfl hne
    | cons e t => exact ⟨e, List.mem_cons_self e t, hC e (List.mem_cons_self e t)⟩
  have hDok : ∀ ev ∈ evs, (ev.lookup "Date").isSome = true := by
    intro ev hev
    have h := hD ev hev
    cases hlk : ev.lookup "Date" with
    | some c => rfl
    | none =>
      rw [getRaw, hlk] at h
      simp [parseTsCell] at h
  have hdp : colPresent evs "Date" = true := by
    rw [colPresent, List.any_eq_true]
    cases evs with
    | nil => exact absurd rfl hne
    | cons e t => exact ⟨e, List.mem_cons_self e t, hDok e (List.mem_cons_self e t)⟩
  have hdfe : dfEmpty evs = false := by
    cases evs with
    | nil => exact absurd rfl hne
    | cons e t =>
      have he : e.isEmpty = false := by
        cases e with
        | nil => cases hC [] (List.mem_cons_self [] t)
        | cons p r => rfl
      simp [dfEmpty, he]
  refine ⟨(evs.filter (fun ev => getRaw ev "Country" = Cell.str "United States")).map
    (mkCalRow evs), ?_, ?_⟩
  · unfold fetch_calendar
    simp only []
    rw [if_neg (by rw [hdfe]; exact Bool.false_ne_true)]
    unfold processEvents
    rw [if_pos hcp]
  · intro row hrow
    rcases List.mem_map.1 hrow with ⟨ev, hevf, rfl⟩
    have hevmem : ev ∈ evs := (List.mem_filter.1 hevf).1
    have hevus : getRaw ev "Country" = Cell.str "United States" :=
      of_decide_eq_true (List.mem_filter.1 hevf).2
    have hlook : ∀ c, c ∈ CALENDAR_COLUMNS →
        (mkCalRow evs ev).lookup c = some (projCell evs ev c) := by
      intro c hc
      unfold mkCalRow
      exact lookup_map_apply _ CALENDAR_COLUMNS c hc
    refine ⟨?_, ?_, ?_, ?_⟩
    · rfl
    · rw [hlook "Country" (by decide)]
      unfold projCell
      rw [if_neg (by decide), if_neg (by decide), if_neg (by decide), if_pos hcp, hevus]
    · obtain ⟨t, ht⟩ := Option.isSome_iff_exists.1 (hD ev hevmem)
      refine ⟨t, ?_, ?_, ?_⟩
      · rw [hlook "Date" (by decide)]
        unfold projCell
        rw [if_pos rfl, if_pos hdp, ht]
      · rw [hlook "date_only" (by decide)]
        unfold projCell
        rw [if_neg (by decide), if_pos rfl, if_pos hdp, ht]
      · rw [hlook "time" (by decide)]
        unfold projCell
        rw [if_neg (by decide), if_neg (by decide), if_pos rfl, if_pos hdp, ht]
    · intro c hcmem hc1 hc2 hc3 hcpf
      rw [hlook c hcmem]
      unfold projCell
      rw [if_neg hc1, if_neg hc2, if_neg hc3,
        if_neg (by rw [hcpf]; exact Bool.false_ne_true)]

/-- C7, witness: the theorem applied to a concrete one-event response. -/
theorem C7_witness :
    ∃ rows, fetch_calendar (.list demoCalEvs) = .ok ⟨CALENDAR_COLUMNS, rows⟩ := by
  obtain ⟨rows, h1, -⟩ := C7_thm demoCalEvs (by decide) (by decide) (by decide)
  exact ⟨rows, h1⟩

/-! ## C8: the latest-value snapshot -/

/-- C8, counterexample to the claim as stated: on a two-row table whose
second-to-last value is null, the snapshot is `(last, null)` but the delta
is null (the code guards on `pd.notna(prev)`), contradicting the claimed
unconditionally non-null delta for tables of two or more rows. -/
theorem C8_counterexample :
    2 ≤ ([(1, none), (2, some 5)] : List (Nat × Option ℚ)).length ∧
    latestPair [(1, none), (2, some 5)] = (some 5, none) ∧
    deltaOf [(1, none), (2, some 5)] = none := by
  refine ⟨by decide, by with_unfolding_all decide, by with_unfolding_all decide⟩

/-- C8, amended: the snapshot is `(null, null)` on an empty table,
`(value, null)` on a one-row table, and `(last, second-to-last)` on larger
tables; the delta equals their difference whenever the second-to-last
value is non-null (and is itself non-null when the last value is also
non-null), but is null — not non-null as claimed — when the second-to-last
value is null. -/
theorem C8_amended_thm (df : List (Nat × Option ℚ)) :
    (df = [] → latestPair df = (none, none) ∧ deltaOf df = none) ∧
    (∀ r, df = [r] → latestPair df = (r.2, none) ∧ deltaOf df = none) ∧
    (∀ r s t, df.reverse = r :: s :: t →
      latestPair df = (r.2, s.2) ∧
      (s.2.isSome = true → deltaOf df = some (optSub r.2 s.2)) ∧
      (∀ a b, r.2 = some a → s.2 = some b → deltaOf df = some (some (a - b)))) := by
  refine ⟨?_, ?_, ?_⟩
  · rintro rfl
    exact ⟨rfl, rfl⟩
  · rintro r rfl
    exact ⟨rfl, rfl⟩
  · intro r s t hrev
    have hlp : latestPair df = (r.2, s.2) := by
      unfold latestPair
      rw [hrev]
    refine ⟨hlp, ?_, ?_⟩
    · intro hs
      unfold deltaOf
      rw [hlp]
      rw [if_pos (show ((r.2, s.2).2).isSome = true from hs)]
    · intro a b hra hsb
      unfold deltaOf
      rw [hlp, hra, hsb]
      rfl

/-- C8, witness: the two-or-more-rows case applied to a concrete table. -/
theorem C8_witness :
    deltaOf [(1, some 3), (2, some 5)] = some (some (5 - 3)) := by
  have h := (C8_amended_thm [(1, some 3), (2, some 5)]).2.2 (2, some 5) (1, some 3) [] rfl
  exact h.2.2 5 3 rfl rfl

/-! ## C9 and C10: the sidebar event rendering -/

/-- C9: an event with `Importance = 3` renders exactly three bullet
characters, but an event whose `Importance` field is absent does NOT
render one bullet — the backfilled `pd.NA` makes `int(ev.get("Importance",
1))` raise `TypeError` (the `.get` default 1 is dead because the backfill
loop guarantees the key exists), so rendering fails.  The first conjunct
confirms the claim's positive half; the second exhibits the code bug in
its "absent defaults to 1 bullet" half. -/
theorem C9_thm :
    renderFirst (.list [evImp3]) =
      .ok ⟨String.mk (List.replicate 3 bulletChar), .str "08:30",
        .str "3.1", .str "3.0", .str "2.9"⟩ ∧
    renderFirst (.list [evNoImportance]) = .error () := by
  refine ⟨?_, ?_⟩
  · with_unfolding_all rfl
  · with_unfolding_all rfl

/-- C10, counterexample to the claim as stated: when the raw response has
no `Actual` field at all, the backfilled `pd.NA` makes `_fmt` raise
`TypeError` (membership test `x not in (None, "")` evaluates `pd.NA ==
None`, whose truth value is ambiguous) instead of rendering the `"N/A"`
placeholder. -/
theorem C10_counterexample :
    renderFirst (.list [evNoActual]) = .error () := by
  with_unfolding_all rfl

/-- C10, amended: a display field that is Python `None` (a JSON null) or
the empty string renders as the `"N/A"` placeholder — as witnessed
end-to-end by an event whose `Actual` is null — but the other missing-value
markers are not handled: a backfilled `pd.NA` raises and a float `NaN`
passes through (rendering as `"nan"`). -/
theorem C10_amended_thm :
    fmtCell .pynone = .ok (.str "N/A") ∧
    fmtCell (.str "") = .ok (.str "N/A") ∧
    fmtCell .na = .error () ∧
    fmtCell .nan = .ok .nan ∧
    (∀ s, s ≠ "" → fmtCell (.str s) = .ok (.str s)) ∧
    (∃ r, renderFirst (.list [evNullActual]) = .ok r ∧ r.actual = .str "N/A") := by
  refine ⟨rfl, rfl, rfl, rfl, ?_, ?_⟩
  · intro s hs
    unfold fmtCell
    simp only []
    rw [if_neg hs]
  · refine ⟨⟨String.mk (List.replicate 2 bulletChar), .str "08:30",
      .str "N/A", .str "3.0", .str "2.9"⟩, ?_, rfl⟩
    with_unfolding_all rfl

/-- C10, witness: the pass-through case applied to a concrete non-empty
string. -/
theorem C10_witness : fmtCell (.str "3.1") = .ok (.str "3.1") :=
  C10_amended_thm.2.2.2.2.1 "3.1" (by decide)

end MacroDash
